import Mathlib

/-!
Shallow embedding of the Korra AI agent orchestration core
(`src/backend/graph.py` and `src/tools/file_stats_tool.py`).

External boundaries (the language-model backend, the search backend, the
MCP tool loader, the spawned OS process, and Python's `json` codec) are
modelled as explicit parameters or small operational models; everything
else is translated directly from the source.
-/

set_option autoImplicit false

/-- Python's substring test `pat in s`, used by `route_tools` on tool names. -/
def strContains (s pat : String) : Bool :=
  decide (List.IsInfix pat.data s.data)

/-- ASCII action of Python's `str.lower()` on one character (all tool names in
play are ASCII): map an uppercase letter to its lowercase counterpart. -/
def lowerChar (c : Char) : Char :=
  if 'A' ≤ c ∧ c ≤ 'Z' then Char.ofNat (c.toNat + 32) else c

/-- Python's `str.lower()` (ASCII fragment), as used by `route_tools`. -/
def strLower (s : String) : String :=
  ⟨s.data.map lowerChar⟩

/-- Python's `str.strip()`: drop leading and trailing whitespace. -/
def pyStrip (s : String) : String :=
  ⟨((s.data.dropWhile Char.isWhitespace).reverse.dropWhile Char.isWhitespace).reverse⟩

/-- One tool invocation request attached to an AI message
(LangChain `tool_calls` entry; `route_tools` reads its `"name"` key). -/
structure ToolCall where
  name : String
deriving DecidableEq, Repr

/-- A conversation message: text content plus the (possibly empty) list of
tool-call requests (graph.py reads `.content` and `getattr(last, "tool_calls", None) or []`). -/
structure Message where
  content : String
  tool_calls : List ToolCall
deriving DecidableEq, Repr

/-- Graph state (`State` in graph.py): the ordered conversation history. -/
structure GState where
  messages : List Message
deriving DecidableEq, Repr

/-- Modelled from the spec: the merge policy `add_messages` annotated on
`State.messages` (graph.py line 69) lives in the langgraph library, which is
not part of `src/`; spec §4.1 and the `State` docstring ("messages are
appended rather than replaced") describe it as list concatenation:
`updated = existing ++ incoming`. -/
def add_messages (existing incoming : List Message) : List Message :=
  existing ++ incoming

/-- Observable behavior of one run of the external executable: how many time
units it takes to terminate (`none` = never terminates), and its exit code,
stdout and stderr if it does. -/
structure ProcBehavior where
  duration : Option Nat
  returncode : Int
  stdout : String
  stderr : String
deriving DecidableEq, Repr

/-- What a `subprocess.run` call can produce when it returns: a completed
process, or a raised `TimeoutExpired`. -/
inductive ProcResult where
  | completed (returncode : Int) (stdout stderr : String)
  | timeoutExpired
deriving DecidableEq, Repr

/-- Operational model of `subprocess.run` with an optional `timeout` argument:
with a bound `t`, a process that terminates within `t` completes and a longer
(or non-terminating) one raises `TimeoutExpired`; without a bound, the call
returns only if the process terminates (`none` = the call never returns). -/
def subprocess_run (timeout : Option Nat) (b : ProcBehavior) : Option ProcResult :=
  match b.duration, timeout with
  | some d, some t =>
      if d ≤ t then some (.completed b.returncode b.stdout b.stderr)
      else some .timeoutExpired
  | some _, none => some (.completed b.returncode b.stdout b.stderr)
  | none, some _ => some .timeoutExpired
  | none, none => none

/-- Outcome of attempting to launch the external executable: it ran with some
behavior, or the launch raised `FileNotFoundError`, or some other exception
(I/O error, etc.) with its type name and text. -/
inductive LaunchOutcome where
  | ran (b : ProcBehavior)
  | fileNotFound (msg : String)
  | exn (ty msg : String)
deriving DecidableEq, Repr

/-- Whether the attempted launch produces any outcome at all for the caller:
true unless the executable ran forever (in which case an unbounded wait would
never return). -/
def launchReturns : LaunchOutcome → Bool
  | .ran b => b.duration.isSome
  | .fileNotFound _ => true
  | .exn _ _ => true

/-- Result of running a node body: it returned a value, or an exception
escaped it, or the call never returns (hangs). -/
inductive NodeResult (α : Type) where
  | ret (v : α)
  | raises (ty : String)
  | hangs
deriving DecidableEq, Repr

/-- Classification of a tool name by `route_tools` (graph.py lines 252-258):
lowercase the name, then test substrings in priority order
tavily, then file/stats, then github; otherwise fall through to `END`
(langgraph's `END` sentinel, the string `"__end__"`). -/
def route_of_call (name0 : String) : String :=
  let name := strLower name0
  if strContains name "tavily" then "tavily_tool"
  else if strContains name "file" || strContains name "stats" then "file_stats_tool"
  else if strContains name "github" then "github_mcp_tool"
  else "__end__"

/-- Router (`route_tools`, graph.py lines 238-261): look at the latest message
(`state["messages"][-1]`, `none` models the IndexError on an empty history);
if it carries tool-call requests, classify the first one's name, else `END`. -/
def route_tools (st : GState) : Option String :=
  st.messages.getLast?.map fun last =>
    match last.tool_calls.head? with
    | some tc => route_of_call tc.name
    | none => "__end__"

/-- Search tool node (`tavily__tool`, graph.py lines 132-139): invoke the
search backend on the latest message's content and wrap the single result.
`invoke` is the external backend boundary. An empty history models as the
IndexError of `state["messages"][-1]`. -/
def tavily__tool (invoke : String → String) (st : GState) : NodeResult (List String) :=
  match st.messages.getLast? with
  | none => .raises "IndexError"
  | some last => .ret [invoke last.content]

/-- Subprocess analysis node (`file_stats__tool`, graph.py lines 144-184).
`parse`/`dumps` model Python's `json.loads` / `json.dumps(·, indent=2)`
boundary; `run_exe` gives the launch outcome of `[file_stats_exe, prompt]`.
The `subprocess.run` call passes no `timeout` argument, so it is modelled
with `subprocess_run none`; a non-terminating executable hangs the node.
Non-zero exit, launch failures and unparseable stdout each return a single
message; the `timeoutExpired` branch is unreachable under `none` and
corresponds to the generic `except Exception` handler. -/
def file_stats__tool {J : Type} (parse : String → Option J) (dumps : J → String)
    (file_stats_exe : String) (run_exe : String → LaunchOutcome)
    (st : GState) : NodeResult (List String) :=
  match st.messages.getLast? with
  | none => .raises "IndexError"
  | some last =>
    match run_exe last.content with
    | .fileNotFound _ =>
        .ret ["file_stats executable not found: " ++ file_stats_exe]
    | .exn ty msg =>
        .ret ["file_stats tool exception: " ++ ty ++ ": " ++ msg]
    | .ran b =>
      match subprocess_run none b with
      | none => .hangs
      | some .timeoutExpired =>
          .ret ["file_stats tool exception: TimeoutExpired: " ++ file_stats_exe]
      | some (.completed rc out0 err) =>
        if rc ≠ 0 then
          .ret ["file_stats tool error (rc=" ++ toString rc ++ "): " ++ pyStrip err]
        else
          let out := pyStrip out0
          match parse out with
          | some parsed => .ret [dumps parsed]
          | none => .ret [out]

/-- MCP tool node (`github_mcp__tool`, graph.py lines 189-203): discover the
remote tools, bind them and invoke the backend on the full history; the
backend boundary `ainvoke` returns the single response message. -/
def github_mcp__tool (ainvoke : List Message → Message) (st : GState) :
    NodeResult (List Message) :=
  .ret [ainvoke st.messages]

/-- Agent node (`agent`, graph.py lines 208-220): invoke the tool-bound model
backend on the full history; the backend boundary `invoke` returns the single
response message. -/
def agent (invoke : List Message → Message) (st : GState) :
    NodeResult (List Message) :=
  .ret [invoke st.messages]

/-- Unconditional edges of the compiled graph (graph.py lines 268-270):
every tool node hands control back to the agent node. -/
def graph_edges : List (String × String) :=
  [("tavily_tool", "agent"), ("file_stats_tool", "agent"), ("github_mcp_tool", "agent")]

/-- Python's `stdout_clean.replace("\\", "\\\\")` in `analyze_file_statistics`:
double every backslash. -/
def escBackslash (s : String) : String :=
  ⟨(s.data.map fun c => if c = '\\' then ['\\', '\\'] else [c]).flatten⟩

/-- Return value of `analyze_file_statistics`: the parsed JSON document on
success, or an error dictionary (modelled as its string-valued entries). -/
inductive ToolReturn (J : Type) where
  | parsed (j : J)
  | errDict (entries : List (String × String))
deriving DecidableEq, Repr

/-- Standalone tool wrapper (`analyze_file_statistics`,
file_stats_tool.py lines 82-119). `parse` models `json.loads`,
`decodeErrMsg` the `str(e)` of the `JSONDecodeError` raised on a given input,
`run_exe` the launch outcome of `[tool_path, file_path]`. The
`subprocess.run` call passes `timeout=10`, so it always returns
(`getD .timeoutExpired` discharges the impossible `none` case); a timeout
and every launch exception are converted to `"status": "error"` dicts, and a
zero exit with empty stripped stdout falls to the `Tool failed` branch. -/
def analyze_file_statistics {J : Type} (parse : String → Option J)
    (decodeErrMsg : String → String) (run_exe : String → LaunchOutcome)
    (filename : String) : ToolReturn J :=
  match run_exe filename with
  | .fileNotFound m =>
      .errDict [("error", "Integration error: " ++ m), ("status", "error")]
  | .exn _ m =>
      .errDict [("error", "Integration error: " ++ m), ("status", "error")]
  | .ran b =>
    match (subprocess_run (some 10) b).getD .timeoutExpired with
    | .timeoutExpired =>
        .errDict [("error", "Tool execution timed out"), ("status", "error")]
    | .completed rc stdout stderr =>
      let stdout_clean := pyStrip stdout
      let stderr_clean := pyStrip stderr
      if rc = 0 ∧ stdout_clean ≠ "" then
        let escaped := escBackslash stdout_clean
        match parse escaped with
        | some j => .parsed j
        | none =>
            .errDict [("error", "Invalid JSON output from tool"),
              ("raw_output", escaped), ("status", "error"),
              ("decode_error", decodeErrMsg escaped)]
      else
        .errDict [("error", "Tool failed: " ++ stderr_clean), ("status", "error")]


/-! ## Helper lemmas -/

/-- Helper: the router's route when the latest message carries tool calls is
the classification of the first call's name. -/
theorem route_tools_head (st : GState) (m : Message) (tc : ToolCall)
    (h : st.messages.getLast? = some m) (h2 : m.tool_calls.head? = some tc) :
    route_tools st = some (route_of_call tc.name) := by
  simp [route_tools, h, h2]

/-- Helper: the router's route when the latest message carries no tool calls
is the `END` sentinel. -/
theorem route_tools_end (st : GState) (m : Message)
    (h : st.messages.getLast? = some m) (h2 : m.tool_calls.head? = none) :
    route_tools st = some "__end__" := by
  simp [route_tools, h, h2]

/-- Helper: a string contains any factor exhibited by a decomposition of its
character data. -/
theorem strContains_of_data (s a x b : String)
    (h : s.data = a.data ++ (x.data ++ b.data)) : strContains s x = true :=
  decide_eq_true ⟨a.data, b.data, by rw [← List.append_assoc] at h; exact h.symm⟩

/-! ## Claims -/

/-- C1: for every conversation state whose latest message carries tool-call
requests, `route_tools` classifies by the first request's name:
`"tavily_search"` routes to the search node, `"file_stats"` and `"get_stats"`
route to the subprocess node, `"github_create_issue"` routes to the remote
node, `"weather"` routes to termination, and a latest message with no
tool-call request routes to termination. -/
theorem claim_C1_router_classification (st : GState) (m : Message)
    (h : st.messages.getLast? = some m) :
    (m.tool_calls.head?.map ToolCall.name = some "tavily_search" →
      route_tools st = some "tavily_tool") ∧
    (m.tool_calls.head?.map ToolCall.name = some "file_stats" →
      route_tools st = some "file_stats_tool") ∧
    (m.tool_calls.head?.map ToolCall.name = some "get_stats" →
      route_tools st = some "file_stats_tool") ∧
    (m.tool_calls.head?.map ToolCall.name = some "github_create_issue" →
      route_tools st = some "github_mcp_tool") ∧
    (m.tool_calls.head?.map ToolCall.name = some "weather" →
      route_tools st = some "__end__") ∧
    (m.tool_calls = [] → route_tools st = some "__end__") := by
  refine ⟨?_, ?_, ?_, ?_, ?_,
    fun hn => route_tools_end st m h (by rw [hn]; rfl)⟩
  all_goals {
    intro hn
    obtain ⟨tc, htc, hname⟩ := Option.map_eq_some'.mp hn
    rw [route_tools_head st m tc h htc, hname]
    decide
  }

/-- Witness for C1 at the concrete state whose latest message requests
`"tavily_search"`. -/
theorem claim_C1_witness :
    route_tools ⟨[⟨"hi", [⟨"tavily_search"⟩]⟩]⟩ = some "tavily_tool" :=
  (claim_C1_router_classification ⟨[⟨"hi", [⟨"tavily_search"⟩]⟩]⟩
    ⟨"hi", [⟨"tavily_search"⟩]⟩ rfl).1 rfl

/-- C2: the state merge function is list concatenation: merging no incoming
messages leaves the history unchanged, and merging `[m1, m2]` appends them in
order with no replacement and no deduplication. -/
theorem claim_C2_merge_is_append :
    (∀ S : List Message, add_messages S [] = S) ∧
    (∀ (S : List Message) (m1 m2 : Message),
      add_messages S [m1, m2] = S ++ [m1, m2]) :=
  ⟨fun S => List.append_nil S, fun _ _ _ => rfl⟩

/-- C5: the router consumes only the first tool-call request of the latest
message, and resolves keyword overlaps in the fixed priority order tavily,
then file/stats, then github; in particular a name containing several
keywords is decided by the earliest matching branch. -/
theorem claim_C5_router_priority (st : GState) (m : Message) (tc : ToolCall)
    (rest : List ToolCall)
    (h1 : st.messages.getLast? = some m) (h2 : m.tool_calls = tc :: rest) :
    route_tools st = some (route_of_call tc.name) ∧
    (strContains (strLower tc.name) "tavily" = true →
      route_of_call tc.name = "tavily_tool") ∧
    (strContains (strLower tc.name) "tavily" = false →
      (strContains (strLower tc.name) "file" || strContains (strLower tc.name) "stats") = true →
      route_of_call tc.name = "file_stats_tool") ∧
    (strContains (strLower tc.name) "tavily" = false →
      (strContains (strLower tc.name) "file" || strContains (strLower tc.name) "stats") = false →
      strContains (strLower tc.name) "github" = true →
      route_of_call tc.name = "github_mcp_tool") := by
  refine ⟨route_tools_head st m tc h1 (by rw [h2]; rfl), ?_, ?_, ?_⟩
  · intro ht
    simp [route_of_call, ht]
  · intro ht hfs
    simp [route_of_call, ht, hfs]
  · intro ht hfs hg
    simp [route_of_call, ht, hfs, hg]

/-- Witness for C5 at the ambiguous tool name `"github_file_stats"`, which
contains both `"file"` and `"github"`: the earlier file/stats branch wins. -/
theorem claim_C5_witness :
    route_tools ⟨[⟨"", [⟨"github_file_stats"⟩]⟩]⟩ = some "file_stats_tool" := by
  have h := claim_C5_router_priority ⟨[⟨"", [⟨"github_file_stats"⟩]⟩]⟩
    ⟨"", [⟨"github_file_stats"⟩]⟩ ⟨"github_file_stats"⟩ [] rfl rfl
  rw [h.1, h.2.2.1 (by decide) (by decide)]

/-- C8: router keyword matching is case-insensitive: the tool name is
lowercased before the substring checks, so two states whose first tool-call
names agree after lowercasing are routed identically. -/
theorem claim_C8_router_case_insensitive (pre pre' : List Message)
    (c c' n n' : String) (rest rest' : List ToolCall)
    (h : strLower n = strLower n') :
    route_tools ⟨pre ++ [⟨c, ⟨n⟩ :: rest⟩]⟩ =
      route_tools ⟨pre' ++ [⟨c', ⟨n'⟩ :: rest'⟩]⟩ := by
  have e1 : route_tools ⟨pre ++ [⟨c, ⟨n⟩ :: rest⟩]⟩ = some (route_of_call n) :=
    route_tools_head _ ⟨c, ⟨n⟩ :: rest⟩ ⟨n⟩ (by simp) rfl
  have e2 : route_tools ⟨pre' ++ [⟨c', ⟨n'⟩ :: rest'⟩]⟩ = some (route_of_call n') :=
    route_tools_head _ ⟨c', ⟨n'⟩ :: rest'⟩ ⟨n'⟩ (by simp) rfl
  have e3 : route_of_call n = route_of_call n' := by
    unfold route_of_call
    rw [h]
  rw [e1, e2, e3]

/-- Witness for C8: `"TAVILY_SEARCH"` and `"tavily_search"` route
identically. -/
theorem claim_C8_witness :
    route_tools ⟨[⟨"x", [⟨"TAVILY_SEARCH"⟩]⟩]⟩ =
      route_tools ⟨[⟨"y", [⟨"tavily_search"⟩]⟩]⟩ :=
  claim_C8_router_case_insensitive [] [] "x" "y" "TAVILY_SEARCH" "tavily_search"
    [] [] (by decide)

/-- C3: the subprocess analysis node is total over every subprocess outcome
that yields the caller an outcome at all (non-zero exit, missing executable,
I/O or timeout exceptions, unparseable output): it returns a single-message
result and never lets an exception escape. -/
theorem claim_C3_subprocess_node_total (J : Type) (parse : String → Option J)
    (dumps : J → String) (exe : String) (run_exe : String → LaunchOutcome)
    (st : GState) (m : Message)
    (hlast : st.messages.getLast? = some m)
    (hret : launchReturns (run_exe m.content) = true) :
    ∃ s, file_stats__tool parse dumps exe run_exe st = NodeResult.ret [s] := by
  cases hrun : run_exe m.content with
  | fileNotFound msg =>
    simp only [file_stats__tool, hlast, hrun]
    exact ⟨_, rfl⟩
  | exn ty msg =>
    simp only [file_stats__tool, hlast, hrun]
    exact ⟨_, rfl⟩
  | ran b =>
    rw [hrun] at hret
    simp only [launchReturns] at hret
    cases hd : b.duration with
    | none => rw [hd] at hret; simp at hret
    | some d =>
      have hproc : subprocess_run none b =
          some (.completed b.returncode b.stdout b.stderr) := by
        unfold subprocess_run
        rw [hd]
      simp only [file_stats__tool, hlast, hrun, hproc]
      by_cases hrc : b.returncode ≠ 0
      · rw [if_pos hrc]
        exact ⟨_, rfl⟩
      · rw [if_neg hrc]
        cases hp : parse (pyStrip b.stdout) with
        | some parsed =>
          simp only [hp]
          exact ⟨_, rfl⟩
        | none =>
          simp only [hp]
          exact ⟨_, rfl⟩

/-- Witness for C3 at a concrete zero-exit run. -/
theorem claim_C3_witness :
    ∃ s, file_stats__tool (J := Nat) (fun _ => none) toString "./file_stats"
        (fun _ => LaunchOutcome.ran ⟨some 1, 0, "out", ""⟩) ⟨[⟨"f.txt", []⟩]⟩ =
      NodeResult.ret [s] :=
  claim_C3_subprocess_node_total Nat (fun _ => none) toString "./file_stats"
    (fun _ => LaunchOutcome.ran ⟨some 1, 0, "out", ""⟩) ⟨[⟨"f.txt", []⟩]⟩
    ⟨"f.txt", []⟩ rfl rfl

/-- Counterexample for C4: the graph's subprocess node passes no timeout to
`subprocess.run`, so a never-terminating executable makes the node hang (no
timeout error Message), and an executable running 11 time units — past the
claimed 10-unit bound — is simply waited for and completes normally. -/
theorem claim_C4_counterexample :
    file_stats__tool (J := Nat) (fun _ => none) toString "./file_stats"
        (fun _ => LaunchOutcome.ran ⟨none, 0, "", ""⟩) ⟨[⟨"f.txt", []⟩]⟩ =
      NodeResult.hangs ∧
    file_stats__tool (J := Nat) (fun _ => none) toString "./file_stats"
        (fun _ => LaunchOutcome.ran ⟨some 11, 0, "out", ""⟩) ⟨[⟨"f.txt", []⟩]⟩ =
      NodeResult.ret ["out"] ∧
    (NodeResult.ret ["out"] ≠ (NodeResult.hangs : NodeResult (List String))) :=
  ⟨by decide, by decide, by decide⟩

/-- C4 as amended: the graph's subprocess node (`file_stats__tool`) invokes
`subprocess.run` with no timeout bound, so a never-terminating executable
hangs the node; the bounded wait `timeout=10` belongs to the standalone tool
wrapper `analyze_file_statistics`, where every run past the timeout yields
the timeout error dict instead of a hang. -/
theorem claim_C4_amended :
    (∀ (J : Type) (parse : String → Option J) (dumps : J → String)
        (exe : String) (run_exe : String → LaunchOutcome) (st : GState)
        (m : Message) (b : ProcBehavior),
      st.messages.getLast? = some m →
      run_exe m.content = LaunchOutcome.ran b → b.duration = none →
      file_stats__tool parse dumps exe run_exe st = NodeResult.hangs) ∧
    (∀ (J : Type) (parse : String → Option J) (decodeErrMsg : String → String)
        (run_exe : String → LaunchOutcome) (filename : String) (b : ProcBehavior),
      run_exe filename = LaunchOutcome.ran b →
      (b.duration = none ∨ ∃ d, b.duration = some d ∧ 10 < d) →
      analyze_file_statistics parse decodeErrMsg run_exe filename =
        ToolReturn.errDict [("error", "Tool execution timed out"), ("status", "error")]) := by
  constructor
  · intro J parse dumps exe run_exe st m b hlast hrun hd
    have hproc : subprocess_run none b = none := by
      unfold subprocess_run
      rw [hd]
    simp [file_stats__tool, hlast, hrun, hproc]
  · intro J parse decodeErrMsg run_exe filename b hrun hdur
    have hproc : subprocess_run (some 10) b = some ProcResult.timeoutExpired := by
      rcases hdur with hd | ⟨d, hd, hlt⟩
      · unfold subprocess_run
        rw [hd]
      · unfold subprocess_run
        rw [hd]
        simp [Nat.not_le.mpr hlt]
    simp [analyze_file_statistics, hrun, hproc]

/-- Witness for the amended C4: a never-terminating run hangs the graph node,
and an 11-unit run makes the standalone wrapper report a timeout. -/
theorem claim_C4_amended_witness :
    file_stats__tool (J := Nat) (fun _ => none) toString "./file_stats"
        (fun _ => LaunchOutcome.ran ⟨none, 1, "x", "y"⟩) ⟨[⟨"g.txt", []⟩]⟩ =
      NodeResult.hangs ∧
    analyze_file_statistics (J := Nat) (fun _ => none) (fun _ => "e")
        (fun _ => LaunchOutcome.ran ⟨some 11, 0, "out", ""⟩) "g.txt" =
      ToolReturn.errDict [("error", "Tool execution timed out"), ("status", "error")] :=
  ⟨claim_C4_amended.1 Nat (fun _ => none) toString "./file_stats"
      (fun _ => LaunchOutcome.ran ⟨none, 1, "x", "y"⟩) ⟨[⟨"g.txt", []⟩]⟩
      ⟨"g.txt", []⟩ ⟨none, 1, "x", "y"⟩ rfl rfl rfl,
   claim_C4_amended.2 Nat (fun _ => none) (fun _ => "e")
      (fun _ => LaunchOutcome.ran ⟨some 11, 0, "out", ""⟩) "g.txt"
      ⟨some 11, 0, "out", ""⟩ rfl (Or.inr ⟨11, rfl, by decide⟩)⟩

/-- C6: for every subprocess run that exits non-zero, the node emits exactly
one error-result message whose text contains the exit code and the (stripped)
stderr text, and control flows back to the agent node rather than
terminating. -/
theorem claim_C6_nonzero_exit (J : Type) (parse : String → Option J)
    (dumps : J → String) (exe : String) (run_exe : String → LaunchOutcome)
    (st : GState) (m : Message) (d : Nat) (rc : Int) (out err : String)
    (hlast : st.messages.getLast? = some m)
    (hrun : run_exe m.content = LaunchOutcome.ran ⟨some d, rc, out, err⟩)
    (hrc : rc ≠ 0) :
    file_stats__tool parse dumps exe run_exe st =
      NodeResult.ret
        ["file_stats tool error (rc=" ++ toString rc ++ "): " ++ pyStrip err] ∧
    strContains
      ("file_stats tool error (rc=" ++ toString rc ++ "): " ++ pyStrip err)
      (toString rc) = true ∧
    strContains
      ("file_stats tool error (rc=" ++ toString rc ++ "): " ++ pyStrip err)
      (pyStrip err) = true ∧
    ("file_stats_tool", "agent") ∈ graph_edges := by
  refine ⟨?_, ?_, ?_, by simp [graph_edges]⟩
  · have hproc : subprocess_run none (⟨some d, rc, out, err⟩ : ProcBehavior) =
        some (.completed rc out err) := by
      unfold subprocess_run
      simp
    simp only [file_stats__tool, hlast, hrun, hproc]
    rw [if_pos hrc]
  · exact strContains_of_data _ "file_stats tool error (rc=" _
      ("): " ++ pyStrip err) (by simp [String.data_append])
  · exact strContains_of_data _
      ("file_stats tool error (rc=" ++ toString rc ++ "): ") _ ""
      (by simp [String.data_append])

/-- Witness for C6 at exit code 2 with stderr `"bad file"`. -/
theorem claim_C6_witness :
    file_stats__tool (J := Nat) (fun _ => none) toString "./file_stats"
        (fun _ => LaunchOutcome.ran ⟨some 1, 2, "", "bad file"⟩) ⟨[⟨"f.txt", []⟩]⟩ =
      NodeResult.ret ["file_stats tool error (rc=2): bad file"] ∧
    strContains "file_stats tool error (rc=2): bad file" "2" = true ∧
    strContains "file_stats tool error (rc=2): bad file" "bad file" = true ∧
    ("file_stats_tool", "agent") ∈ graph_edges := by
  have h := claim_C6_nonzero_exit Nat (fun _ => none) toString "./file_stats"
    (fun _ => LaunchOutcome.ran ⟨some 1, 2, "", "bad file"⟩) ⟨[⟨"f.txt", []⟩]⟩
    ⟨"f.txt", []⟩ 1 2 "" "bad file" rfl rfl (by decide)
  exact ⟨h.1.trans (by decide), by decide, by decide, h.2.2.2⟩

/-- Counterexample for C7: on parse failure the node's message content is the
whitespace-stripped stdout, not the raw stdout text unchanged: with stdout
`"plain\n"` (which is not JSON) the content is `"plain"`. -/
theorem claim_C7_counterexample :
    file_stats__tool (J := Nat) (fun _ => none) toString "./file_stats"
        (fun _ => LaunchOutcome.ran ⟨some 1, 0, "plain\n", ""⟩) ⟨[⟨"f.txt", []⟩]⟩ =
      NodeResult.ret ["plain"] ∧
    ("plain" : String) ≠ "plain\n" :=
  ⟨by decide, by decide⟩

/-- C7 as amended: for every zero-exit run the node parses the
whitespace-stripped stdout as JSON; on success the content is the
pretty-printed re-serialization of the parsed document, and on failure the
content is the stripped stdout text, unchanged beyond the strip. -/
theorem claim_C7_amended (J : Type) (parse : String → Option J)
    (dumps : J → String) (exe : String) (run_exe : String → LaunchOutcome)
    (st : GState) (m : Message) (d : Nat) (out err : String)
    (hlast : st.messages.getLast? = some m)
    (hrun : run_exe m.content = LaunchOutcome.ran ⟨some d, 0, out, err⟩) :
    (∀ j, parse (pyStrip out) = some j →
      file_stats__tool parse dumps exe run_exe st = NodeResult.ret [dumps j]) ∧
    (parse (pyStrip out) = none →
      file_stats__tool parse dumps exe run_exe st = NodeResult.ret [pyStrip out]) := by
  have hproc : subprocess_run none (⟨some d, 0, out, err⟩ : ProcBehavior) =
      some (.completed 0 out err) := by
    unfold subprocess_run
    simp
  constructor
  · intro j hp
    simp [file_stats__tool, hlast, hrun, hproc, hp]
  · intro hp
    simp [file_stats__tool, hlast, hrun, hproc, hp]

/-- Witness for C7's amended statement: stdout `" 1 "` parses (to `1`) and is
re-serialized, while stdout `"x"` fails to parse and passes through
stripped. -/
theorem claim_C7_witness :
    file_stats__tool (J := Nat) (fun s => if s = "1" then some 1 else none)
        toString "./fs" (fun _ => LaunchOutcome.ran ⟨some 1, 0, " 1 ", ""⟩)
        ⟨[⟨"f.txt", []⟩]⟩ = NodeResult.ret ["1"] ∧
    file_stats__tool (J := Nat) (fun s => if s = "1" then some 1 else none)
        toString "./fs" (fun _ => LaunchOutcome.ran ⟨some 1, 0, "x", ""⟩)
        ⟨[⟨"f.txt", []⟩]⟩ = NodeResult.ret ["x"] := by
  have h1 := (claim_C7_amended Nat (fun s => if s = "1" then some 1 else none)
    toString "./fs" (fun _ => LaunchOutcome.ran ⟨some 1, 0, " 1 ", ""⟩)
    ⟨[⟨"f.txt", []⟩]⟩ ⟨"f.txt", []⟩ 1 " 1 " "" rfl rfl).1 1 (by decide)
  have h2 := (claim_C7_amended Nat (fun s => if s = "1" then some 1 else none)
    toString "./fs" (fun _ => LaunchOutcome.ran ⟨some 1, 0, "x", ""⟩)
    ⟨[⟨"f.txt", []⟩]⟩ ⟨"f.txt", []⟩ 1 "x" "" rfl rfl).2 (by decide)
  exact ⟨h1.trans (by decide), h2.trans (by decide)⟩

/-- C9: every node returns exactly one new message per invocation — whenever
the agent, search, subprocess or remote node returns a messages delta at all,
that delta has length exactly 1. -/
theorem claim_C9_single_message_delta (J : Type) (parse : String → Option J)
    (dumps : J → String) (exe : String) (run_exe : String → LaunchOutcome)
    (invoke : String → String) (ainvoke llm_invoke : List Message → Message)
    (st : GState) :
    (∀ v, tavily__tool invoke st = NodeResult.ret v → v.length = 1) ∧
    (∀ v, file_stats__tool parse dumps exe run_exe st = NodeResult.ret v →
      v.length = 1) ∧
    (∀ v, github_mcp__tool ainvoke st = NodeResult.ret v → v.length = 1) ∧
    (∀ v, agent llm_invoke st = NodeResult.ret v → v.length = 1) := by
  refine ⟨?_, ?_, ?_, ?_⟩
  · intro v h
    unfold tavily__tool at h
    split at h
    · exact absurd h (by simp)
    · cases h
      rfl
  · intro v h
    unfold file_stats__tool at h
    split at h
    · exact absurd h (by simp)
    · split at h
      · cases h
        rfl
      · cases h
        rfl
      · split at h
        · exact absurd h (by simp)
        · cases h
          rfl
        · split at h
          · cases h
            rfl
          · dsimp only at h
            split at h
            · cases h
              rfl
            · cases h
              rfl
  · intro v h
    unfold github_mcp__tool at h
    cases h
    rfl
  · intro v h
    unfold agent at h
    cases h
    rfl

/-- Witness for C9: the search node on a one-message state returns the
single-element delta `["q"]`. -/
theorem claim_C9_witness :
    tavily__tool (fun s => s) ⟨[⟨"q", []⟩]⟩ = NodeResult.ret ["q"] ∧
    (["q"] : List String).length = 1 :=
  ⟨rfl,
   (claim_C9_single_message_delta Nat (fun _ => none) toString "e"
      (fun _ => LaunchOutcome.fileNotFound "m") (fun s => s)
      (fun _ => ⟨"a", []⟩) (fun _ => ⟨"a", []⟩) ⟨[⟨"q", []⟩]⟩).1 ["q"] rfl⟩

/-- C10: the standalone tool wrapper is total and error-tagged: on every
subprocess outcome it returns either the parsed document or an error dict
carrying `("status", "error")`; in particular a zero exit with empty
(stripped) stdout is the `Tool failed` error, not a success. -/
theorem claim_C10_analyze_total (J : Type) (parse : String → Option J)
    (decodeErrMsg : String → String) (run_exe : String → LaunchOutcome)
    (filename : String) :
    ((∃ j, analyze_file_statistics parse decodeErrMsg run_exe filename =
        ToolReturn.parsed j) ∨
      (∃ es, analyze_file_statistics parse decodeErrMsg run_exe filename =
        ToolReturn.errDict es ∧ ("status", "error") ∈ es)) ∧
    (∀ (d : Nat) (rc : Int) (out err : String),
      run_exe filename = LaunchOutcome.ran ⟨some d, rc, out, err⟩ → d ≤ 10 →
      pyStrip out = "" →
      analyze_file_statistics parse decodeErrMsg run_exe filename =
        ToolReturn.errDict
          [("error", "Tool failed: " ++ pyStrip err), ("status", "error")]) := by
  constructor
  · cases hrun : run_exe filename with
    | fileNotFound m =>
      refine Or.inr
        ⟨[("error", "Integration error: " ++ m), ("status", "error")], ?_, by simp⟩
      simp only [analyze_file_statistics, hrun]
    | exn ty m =>
      refine Or.inr
        ⟨[("error", "Integration error: " ++ m), ("status", "error")], ?_, by simp⟩
      simp only [analyze_file_statistics, hrun]
    | ran b =>
      cases hp : (subprocess_run (some 10) b).getD ProcResult.timeoutExpired with
      | timeoutExpired =>
        refine Or.inr
          ⟨[("error", "Tool execution timed out"), ("status", "error")], ?_, by simp⟩
        simp only [analyze_file_statistics, hrun, hp]
      | completed rc stdout stderr =>
        by_cases hok : rc = 0 ∧ pyStrip stdout ≠ ""
        · cases hj : parse (escBackslash (pyStrip stdout)) with
          | some j =>
            refine Or.inl ⟨j, ?_⟩
            simp only [analyze_file_statistics, hrun, hp]
            rw [if_pos hok]
            simp only [hj]
          | none =>
            refine Or.inr
              ⟨[("error", "Invalid JSON output from tool"),
                ("raw_output", escBackslash (pyStrip stdout)), ("status", "error"),
                ("decode_error", decodeErrMsg (escBackslash (pyStrip stdout)))],
                ?_, by simp⟩
            simp only [analyze_file_statistics, hrun, hp]
            rw [if_pos hok]
            simp only [hj]
        · refine Or.inr
            ⟨[("error", "Tool failed: " ++ pyStrip stderr), ("status", "error")],
              ?_, by simp⟩
          simp only [analyze_file_statistics, hrun, hp]
          rw [if_neg hok]
  · intro d rc out err hrun hle hstrip
    have hp : (subprocess_run (some 10)
        (⟨some d, rc, out, err⟩ : ProcBehavior)).getD ProcResult.timeoutExpired =
        ProcResult.completed rc out err := by
      unfold subprocess_run
      simp [hle]
    simp only [analyze_file_statistics, hrun, hp]
    rw [if_neg (by simp [hstrip])]

/-- Witness for C10's empty-stdout clause: a zero exit with whitespace-only
stdout yields the `Tool failed` error dict tagged `("status", "error")`. -/
theorem claim_C10_witness :
    analyze_file_statistics (J := Nat) (fun _ => none) (fun _ => "e")
        (fun _ => LaunchOutcome.ran ⟨some 1, 0, " ", "oops"⟩) "h.txt" =
      ToolReturn.errDict [("error", "Tool failed: oops"), ("status", "error")] ∧
    (("status", "error") ∈
      [(("error" : String), ("Tool failed: oops" : String)), ("status", "error")]) := by
  have h := (claim_C10_analyze_total Nat (fun _ => none) (fun _ => "e")
    (fun _ => LaunchOutcome.ran ⟨some 1, 0, " ", "oops"⟩) "h.txt").2
    1 0 " " "oops" rfl (by decide) (by decide)
  exact ⟨h.trans (by decide), by decide⟩
